import Mathlib

/-!
Shallow embedding of the Real Estate Management API (src/main.py together
with src/schemas.py).  MongoDB collections are modelled as Lean lists kept
in insertion order; store-generated ObjectIds are modelled as the values of
a monotone counter carried by the state, and their external 24-hex-digit
string encodings are parsed by a faithful model of `to_object_id`.  Floats
(prices, amounts) are modelled as rationals: the code only ever stores and
compares them.  Timestamps (`now_utc`) are passed explicitly as a natural
number argument.  Each FastAPI handler becomes a pure function from the
database state and the parsed request to an `Except` result, paired with
the successor state for handlers that write.
-/

namespace RealEstate

inductive Role
  | ADMIN | OWNER | BUYER
deriving DecidableEq, Repr

inductive UserStatus
  | ACTIVE | SUSPENDED
deriving DecidableEq, Repr

inductive PropertyStatusLit
  | ACTIVE | INACTIVE
deriving DecidableEq, Repr

inductive PropertyTypeLit
  | APARTMENT | HOUSE | PLOT | COMMERCIAL | INDUSTRIAL
deriving DecidableEq, Repr

inductive PayPurpose
  | BOOKING | DEPOSIT | OTHER
deriving DecidableEq, Repr

inductive PayProvider
  | RAZORPAY | STRIPE | MANUAL
deriving DecidableEq, Repr

inductive PayStatus
  | INITIATED | SUCCESS | FAILED | REFUNDED
deriving DecidableEq, Repr

/-- String form in which a `Property.status` literal is stored in the
document store. -/
def propertyStatusStr : PropertyStatusLit → String
  | .ACTIVE => "ACTIVE"
  | .INACTIVE => "INACTIVE"

/-- String form in which a `Property.property_type` literal is stored. -/
def propertyTypeStr : PropertyTypeLit → String
  | .APARTMENT => "APARTMENT"
  | .HOUSE => "HOUSE"
  | .PLOT => "PLOT"
  | .COMMERCIAL => "COMMERCIAL"
  | .INDUSTRIAL => "INDUSTRIAL"

structure PropertyImage where
  file_path : String
  is_primary : Bool
deriving DecidableEq, Repr

/-- Stored `user` document (schemas.User plus the store id; the admin
status endpoint may add `updated_at` via `$set`). -/
structure UserDoc where
  _id : Nat
  full_name : String
  email : String
  mobile : String
  password_hash : Option String
  role : Role
  status : UserStatus
  updated_at : Option Nat
deriving DecidableEq, Repr

/-- Stored `property` document.  `property_type` and `status` are kept as
strings: `PropertyUpdate` declares them as plain `Optional[str]`, so an
update may store arbitrary strings in those fields. -/
structure PropertyDoc where
  _id : Nat
  owner_id : String
  title : String
  description : Option String
  property_type : String
  price : Rat
  currency : String
  area_sqft : Option Rat
  bedrooms : Option Int
  bathrooms : Option Int
  parking : Option Bool
  furnished : Option Bool
  address_line : Option String
  city : Option String
  state : Option String
  pincode : Option String
  latitude : Option Rat
  longitude : Option Rat
  verified : Bool
  status : String
  images : List PropertyImage
  updated_at : Option Nat
deriving DecidableEq, Repr

/-- Stored `message` document.  `sender_id`/`receiver_id` are stored as the
plain strings supplied by the client. -/
structure MessageDoc where
  _id : Nat
  sender_id : String
  receiver_id : String
  property_id : Option String
  subject : String
  body : String
  is_read : Bool
deriving DecidableEq, Repr

/-- Stored `payment` document. -/
structure PaymentDoc where
  _id : Nat
  buyer_id : String
  property_id : String
  amount : Rat
  currency : String
  purpose : PayPurpose
  provider : Option PayProvider
  provider_payment_id : Option String
  status : PayStatus
  updated_at : Option Nat
deriving DecidableEq, Repr

/-- The four collections of the document store, in insertion order, plus
the counter from which fresh `_id`s are generated. -/
structure DB where
  users : List UserDoc
  properties : List PropertyDoc
  messages : List MessageDoc
  payments : List PaymentDoc
  nextId : Nat
deriving DecidableEq, Repr

/-- An `HTTPException(status_code, detail)`. -/
structure HttpError where
  status : Nat
  detail : String
deriving DecidableEq, Repr

structure IdResponse where
  id : Nat
deriving DecidableEq, Repr

/-- Value of a hex digit character (0 for non-hex characters, which
`isValidObjectId` rules out beforehand). -/
def hexVal (c : Char) : Nat :=
  if c.isDigit then c.toNat - '0'.toNat
  else if 'a' ≤ c && c ≤ 'f' then c.toNat - 'a'.toNat + 10
  else if 'A' ≤ c && c ≤ 'F' then c.toNat - 'A'.toNat + 10
  else 0

def isHexDigit (c : Char) : Bool :=
  c.isDigit || ('a' ≤ c && c ≤ 'f') || ('A' ≤ c && c ≤ 'F')

/-- A string is accepted by `bson.ObjectId` exactly when it is a 24
character hexadecimal encoding of the 12 identifier bytes. -/
def isValidObjectId (s : String) : Bool :=
  s.length == 24 && s.data.all isHexDigit

/-- Numeric value of a valid ObjectId string (hex, case-insensitive). -/
def decodeHex (s : String) : Nat :=
  s.data.foldl (fun a c => 16 * a + hexVal c) 0

/-- Model of `to_object_id`: parse the external id string, raising
HTTP 400 on malformed input (main.py lines 29-33). -/
def to_object_id (id_str : String) : Except HttpError Nat :=
  if isValidObjectId id_str then .ok (decodeHex id_str)
  else .error ⟨400, "Invalid ID format"⟩

/-- Python truthiness of an `Optional[str]`: `None` and `""` are falsy. -/
def strTruthy : Option String → Bool
  | none => false
  | some s => s != ""

/-- Modelled from the spec: `create_document` (imported from the
`database` module, which is not part of the two source files) inserts one
document into the named collection, keyed by a fresh store-generated
identifier, and returns that identifier.  Here each caller builds the
document from the fresh id `DB.nextId` and appends it to its collection;
the three functions below record this per collection. -/
def DB.insertUser (db : DB) (mk : Nat → UserDoc) : Nat × DB :=
  (db.nextId, { db with users := db.users ++ [mk db.nextId], nextId := db.nextId + 1 })

def DB.insertProperty (db : DB) (mk : Nat → PropertyDoc) : Nat × DB :=
  (db.nextId, { db with properties := db.properties ++ [mk db.nextId], nextId := db.nextId + 1 })

def DB.insertMessage (db : DB) (mk : Nat → MessageDoc) : Nat × DB :=
  (db.nextId, { db with messages := db.messages ++ [mk db.nextId], nextId := db.nextId + 1 })

def DB.insertPayment (db : DB) (mk : Nat → PaymentDoc) : Nat × DB :=
  (db.nextId, { db with payments := db.payments ++ [mk db.nextId], nextId := db.nextId + 1 })

/-- `update_one` on a list: rewrite the first document matching the
filter; `none` when `matched_count == 0`. -/
def updateFirst {α : Type} (p : α → Bool) (f : α → α) : List α → Option (List α)
  | [] => none
  | a :: as => if p a then some (f a :: as) else (updateFirst p f as).map (a :: ·)

/-- `delete_one` on a list: remove the first matching document; `none`
when `deleted_count == 0`. -/
def removeFirst {α : Type} (p : α → Bool) : List α → Option (List α)
  | [] => none
  | a :: as => if p a then some as else (removeFirst p as).map (a :: ·)

-- ---------- Auth ----------

structure RegisterRequest where
  full_name : String
  email : String
  mobile : String
  password : String
  role : Role := .BUYER
deriving DecidableEq, Repr

structure LoginRequest where
  email : String
  password : String
deriving DecidableEq, Repr

structure LoginResponse where
  id : Nat
  full_name : String
  email : String
  mobile : String
  role : Role
deriving DecidableEq, Repr

/-- Handler for POST /auth/register (main.py lines 104-120).  The SHA-256
hex digest from Python's hashlib is modelled as the opaque function
argument `sha256hex`. -/
def register (sha256hex : String → String) (db : DB) (req : RegisterRequest) :
    Except HttpError IdResponse × DB :=
  match db.users.find? (fun u => u.email == req.email || u.mobile == req.mobile) with
  | some _ => (.error ⟨409, "Email or mobile already registered"⟩, db)
  | none =>
    let password_hash := sha256hex req.password
    let r := db.insertUser (fun i =>
      { _id := i, full_name := req.full_name, email := req.email, mobile := req.mobile,
        password_hash := some password_hash, role := req.role, status := .ACTIVE,
        updated_at := none })
    (.ok ⟨r.1⟩, r.2)

/-- Handler for POST /auth/login (main.py lines 136-150). -/
def login (sha256hex : String → String) (db : DB) (req : LoginRequest) :
    Except HttpError LoginResponse :=
  match db.users.find? (fun u => u.email == req.email && u.status == .ACTIVE) with
  | none => .error ⟨401, "Invalid credentials"⟩
  | some u =>
    let hashed := sha256hex req.password
    if u.password_hash == some hashed then
      .ok { id := u._id, full_name := u.full_name, email := u.email,
            mobile := u.mobile, role := u.role }
    else .error ⟨401, "Invalid credentials"⟩

-- ---------- Properties ----------

/-- Request model for POST /properties: `class PropertyCreate(Property)`,
so it carries every schemas.Property field, with the schema defaults. -/
structure PropertyCreate where
  owner_id : String
  title : String
  description : Option String := none
  property_type : PropertyTypeLit
  price : Rat
  currency : String := "INR"
  area_sqft : Option Rat := none
  bedrooms : Option Int := none
  bathrooms : Option Int := none
  parking : Option Bool := none
  furnished : Option Bool := none
  address_line : Option String := none
  city : Option String := none
  state : Option String := none
  pincode : Option String := none
  latitude : Option Rat := none
  longitude : Option Rat := none
  verified : Bool := false
  status : PropertyStatusLit := .ACTIVE
  images : List PropertyImage := []
deriving DecidableEq, Repr

structure PropertyUpdate where
  title : Option String := none
  description : Option String := none
  property_type : Option String := none
  price : Option Rat := none
  currency : Option String := none
  area_sqft : Option Rat := none
  bedrooms : Option Int := none
  bathrooms : Option Int := none
  parking : Option Bool := none
  furnished : Option Bool := none
  address_line : Option String := none
  city : Option String := none
  state : Option String := none
  pincode : Option String := none
  latitude : Option Rat := none
  longitude : Option Rat := none
  status : Option String := none
  images : Option (List PropertyImage) := none
deriving DecidableEq, Repr

/-- Handler for POST /properties (main.py lines 179-186). -/
def create_property (db : DB) (req : PropertyCreate) :
    Except HttpError IdResponse × DB :=
  match to_object_id req.owner_id with
  | .error e => (.error e, db)
  | .ok oid =>
    match db.users.find? (fun u => u._id == oid) with
    | none => (.error ⟨404, "Owner not found"⟩, db)
    | some _ =>
      let r := db.insertProperty (fun i =>
        { _id := i, owner_id := req.owner_id, title := req.title,
          description := req.description,
          property_type := propertyTypeStr req.property_type,
          price := req.price, currency := req.currency,
          area_sqft := req.area_sqft, bedrooms := req.bedrooms,
          bathrooms := req.bathrooms, parking := req.parking,
          furnished := req.furnished, address_line := req.address_line,
          city := req.city, state := req.state, pincode := req.pincode,
          latitude := req.latitude, longitude := req.longitude,
          verified := req.verified, status := propertyStatusStr req.status,
          images := req.images, updated_at := none })
      (.ok ⟨r.1⟩, r.2)

inductive SortOption
  | newest | price_asc | price_desc
deriving DecidableEq, Repr

/-- Query parameters of GET /properties, with the handler defaults. -/
structure ListPropertiesParams where
  q : Option String := none
  city : Option String := none
  state : Option String := none
  property_type : Option String := none
  min_price : Option Rat := none
  max_price : Option Rat := none
  bedrooms : Option Int := none
  bathrooms : Option Int := none
  furnished : Option Bool := none
  parking : Option Bool := none
  sort : Option SortOption := some .newest
  skip : Int := 0
  limit : Int := 20
deriving DecidableEq, Repr

def leadEq : List Char → List Char → Bool
  | [], _ => true
  | _ :: _, [] => false
  | a :: as, b :: bs => a == b && leadEq as bs

def occursIn (n : List Char) : List Char → Bool
  | [] => leadEq n []
  | b :: bs => leadEq n (b :: bs) || occursIn n bs

/-- Case-insensitive substring test: model of the `$regex` +
`"$options": "i"` clauses built for the free-text filter `q`. -/
def containsCI (hay needle : String) : Bool :=
  occursIn needle.toLower.data hay.toLower.data

def optContainsCI (hay : Option String) (needle : String) : Bool :=
  match hay with
  | none => false
  | some h => containsCI h needle

/-- The conjunctive Mongo filter built by `list_properties` (main.py
lines 205-233), as a predicate on one stored document.  Falsy (`None` or
empty) string parameters add no clause, mirroring `if city:` etc.;
`bedrooms`/`bathrooms`/`furnished`/`parking`/price bounds are added on
`is not None`. -/
def propertyMatches (p : ListPropertiesParams) (d : PropertyDoc) : Bool :=
  (d.status != "INACTIVE")
  && (match p.city with
      | none => true
      | some c => if c == "" then true else d.city == some c)
  && (match p.state with
      | none => true
      | some c => if c == "" then true else d.state == some c)
  && (match p.property_type with
      | none => true
      | some c => if c == "" then true else d.property_type == c)
  && (match p.bedrooms with
      | none => true
      | some n => d.bedrooms == some n)
  && (match p.bathrooms with
      | none => true
      | some n => d.bathrooms == some n)
  && (match p.furnished with
      | none => true
      | some b => d.furnished == some b)
  && (match p.parking with
      | none => true
      | some b => d.parking == some b)
  && (match p.min_price with
      | none => true
      | some lo => decide (lo ≤ d.price))
  && (match p.max_price with
      | none => true
      | some hi => decide (d.price ≤ hi))
  && (match p.q with
      | none => true
      | some qs =>
        if qs == "" then true
        else containsCI d.title qs || optContainsCI d.description qs
          || optContainsCI d.city qs || optContainsCI d.state qs)

structure ListPropertiesResult where
  items : List PropertyDoc
  count : Nat
deriving DecidableEq, Repr

/-- Handler for GET /properties (main.py lines 189-246).  The cursor's
`.sort` is modelled with a stable sort; for the default `_id` descending
spec this sorts by the store-generated counter, i.e. newest first. -/
def list_properties (db : DB) (p : ListPropertiesParams) : ListPropertiesResult :=
  let filtered := db.properties.filter (propertyMatches p)
  let sorted :=
    match p.sort with
    | some .price_asc => filtered.insertionSort (fun a b : PropertyDoc => a.price ≤ b.price)
    | some .price_desc => filtered.insertionSort (fun a b : PropertyDoc => b.price ≤ a.price)
    | _ => filtered.insertionSort (fun a b : PropertyDoc => b._id ≤ a._id)
  let items := (sorted.drop (max 0 p.skip).toNat).take (min (max 1 p.limit) 100).toNat
  { items := items, count := items.length }

/-- Handler for GET /properties/(property_id) (main.py lines 249-255). -/
def get_property (db : DB) (property_id : String) : Except HttpError PropertyDoc :=
  match to_object_id property_id with
  | .error e => .error e
  | .ok oid =>
    match db.properties.find? (fun d => d._id == oid) with
    | none => .error ⟨404, "Property not found"⟩
    | some d => .ok d

/-- True exactly when `body.model_dump(exclude_none=True)` is the empty
dict, i.e. every field of the PUT body is absent or null. -/
def emptyUpdate (b : PropertyUpdate) : Bool :=
  b.title.isNone && b.description.isNone && b.property_type.isNone
  && b.price.isNone && b.currency.isNone && b.area_sqft.isNone
  && b.bedrooms.isNone && b.bathrooms.isNone && b.parking.isNone
  && b.furnished.isNone && b.address_line.isNone && b.city.isNone
  && b.state.isNone && b.pincode.isNone && b.latitude.isNone
  && b.longitude.isNone && b.status.isNone && b.images.isNone

/-- `$set` of an optional update value over an optional stored value:
present values overwrite, absent ones keep the stored value. -/
def setOpt {α : Type} (u old : Option α) : Option α :=
  match u with
  | some v => some v
  | none => old

/-- Effect of the `$set` document built by `update_property` on the
matched stored document. -/
def applySet (b : PropertyUpdate) (now : Nat) (d : PropertyDoc) : PropertyDoc :=
  { d with
    title := b.title.getD d.title,
    description := setOpt b.description d.description,
    property_type := b.property_type.getD d.property_type,
    price := b.price.getD d.price,
    currency := b.currency.getD d.currency,
    area_sqft := setOpt b.area_sqft d.area_sqft,
    bedrooms := setOpt b.bedrooms d.bedrooms,
    bathrooms := setOpt b.bathrooms d.bathrooms,
    parking := setOpt b.parking d.parking,
    furnished := setOpt b.furnished d.furnished,
    address_line := setOpt b.address_line d.address_line,
    city := setOpt b.city d.city,
    state := setOpt b.state d.state,
    pincode := setOpt b.pincode d.pincode,
    latitude := setOpt b.latitude d.latitude,
    longitude := setOpt b.longitude d.longitude,
    status := b.status.getD d.status,
    images := b.images.getD d.images,
    updated_at := some now }

structure UpdatedResponse where
  updated : Bool
deriving DecidableEq, Repr

structure DeletedResponse where
  deleted : Bool
deriving DecidableEq, Repr

/-- Handler for PUT /properties/(property_id) (main.py lines 258-267).
The empty-body check precedes the id parse, as in the source. -/
def update_property (db : DB) (now : Nat) (property_id : String)
    (body : PropertyUpdate) : Except HttpError UpdatedResponse × DB :=
  if emptyUpdate body then (.error ⟨400, "No fields to update"⟩, db)
  else
    match to_object_id property_id with
    | .error e => (.error e, db)
    | .ok oid =>
      match updateFirst (fun d => d._id == oid) (applySet body now) db.properties with
      | none => (.error ⟨404, "Property not found"⟩, db)
      | some ps => (.ok ⟨true⟩, { db with properties := ps })

/-- Handler for DELETE /properties/(property_id) (main.py lines 270-275). -/
def delete_property (db : DB) (property_id : String) :
    Except HttpError DeletedResponse × DB :=
  match to_object_id property_id with
  | .error e => (.error e, db)
  | .ok oid =>
    match removeFirst (fun d => d._id == oid) db.properties with
    | none => (.error ⟨404, "Property not found"⟩, db)
    | some ps => (.ok ⟨true⟩, { db with properties := ps })

structure VerifyRequest where
  verified : Bool
deriving DecidableEq, Repr

structure VerifyResponse where
  verified : Bool
deriving DecidableEq, Repr

/-- Handler for POST /properties/(property_id)/verify (main.py 282-287). -/
def verify_property (db : DB) (now : Nat) (property_id : String)
    (body : VerifyRequest) : Except HttpError VerifyResponse × DB :=
  match to_object_id property_id with
  | .error e => (.error e, db)
  | .ok oid =>
    match updateFirst (fun d => d._id == oid)
        (fun d => { d with verified := body.verified, updated_at := some now })
        db.properties with
    | none => (.error ⟨404, "Property not found"⟩, db)
    | some ps => (.ok ⟨body.verified⟩, { db with properties := ps })

-- ---------- Messages ----------

/-- Request model for POST /messages: `class MessageCreate(Message)`. -/
structure MessageCreate where
  sender_id : String
  receiver_id : String
  property_id : Option String := none
  subject : String
  body : String
  is_read : Bool := false
deriving DecidableEq, Repr

/-- Handler for POST /messages (main.py lines 295-305).  Sender and
receiver are validated in order; `if req.property_id:` means an absent or
empty-string property id skips the property check. -/
def create_message (db : DB) (req : MessageCreate) :
    Except HttpError IdResponse × DB :=
  let inserted : Except HttpError IdResponse × DB :=
    let r := db.insertMessage (fun i =>
      { _id := i, sender_id := req.sender_id, receiver_id := req.receiver_id,
        property_id := req.property_id, subject := req.subject,
        body := req.body, is_read := req.is_read })
    (.ok ⟨r.1⟩, r.2)
  match to_object_id req.sender_id with
  | .error e => (.error e, db)
  | .ok sid =>
    match db.users.find? (fun u => u._id == sid) with
    | none => (.error ⟨404, "User not found: " ++ req.sender_id⟩, db)
    | some _ =>
      match to_object_id req.receiver_id with
      | .error e => (.error e, db)
      | .ok rid =>
        match db.users.find? (fun u => u._id == rid) with
        | none => (.error ⟨404, "User not found: " ++ req.receiver_id⟩, db)
        | some _ =>
          if strTruthy req.property_id then
            match to_object_id (req.property_id.getD "") with
            | .error e => (.error e, db)
            | .ok pid =>
              match db.properties.find? (fun d => d._id == pid) with
              | none => (.error ⟨404, "Property not found"⟩, db)
              | some _ => inserted
          else inserted

structure MessagesResult where
  items : List MessageDoc
deriving DecidableEq, Repr

/-- Handler for GET /messages (main.py lines 308-317).  The query string
`user_id` is parsed as an ObjectId (400 on malformed input) but the match
itself compares `sender_id`/`receiver_id` as plain strings. -/
def list_messages (db : DB) (user_id : String) : Except HttpError MessagesResult :=
  match to_object_id user_id with
  | .error e => .error e
  | .ok _uid =>
    let msgs := (db.messages.filter
        (fun m => m.sender_id == user_id || m.receiver_id == user_id)).insertionSort
        (fun a b : MessageDoc => b._id ≤ a._id)
    .ok ⟨msgs.take 100⟩

-- ---------- Payments ----------

/-- Request model for POST /payments: `class PaymentCreate(Payment)`, so
every schemas.Payment field is client-settable, with the schema
defaults (in particular `status` defaults to INITIATED but may be
supplied). -/
structure PaymentCreate where
  buyer_id : String
  property_id : String
  amount : Rat
  currency : String := "INR"
  purpose : PayPurpose := .BOOKING
  provider : Option PayProvider := some .MANUAL
  provider_payment_id : Option String := none
  status : PayStatus := .INITIATED
deriving DecidableEq, Repr

structure PaymentStatusUpdate where
  status : PayStatus
  provider_payment_id : Option String := none
deriving DecidableEq, Repr

/-- Handler for POST /payments (main.py lines 330-338). -/
def create_payment (db : DB) (req : PaymentCreate) :
    Except HttpError IdResponse × DB :=
  match to_object_id req.buyer_id with
  | .error e => (.error e, db)
  | .ok bid =>
    match db.users.find? (fun u => u._id == bid) with
    | none => (.error ⟨404, "Buyer not found"⟩, db)
    | some _ =>
      match to_object_id req.property_id with
      | .error e => (.error e, db)
      | .ok pid =>
        match db.properties.find? (fun d => d._id == pid) with
        | none => (.error ⟨404, "Property not found"⟩, db)
        | some _ =>
          let r := db.insertPayment (fun i =>
            { _id := i, buyer_id := req.buyer_id, property_id := req.property_id,
              amount := req.amount, currency := req.currency,
              purpose := req.purpose, provider := req.provider,
              provider_payment_id := req.provider_payment_id,
              status := req.status, updated_at := none })
          (.ok ⟨r.1⟩, r.2)

/-- Effect of the `$set` document built by `update_payment_status`:
status and timestamp always, `provider_payment_id` only when the supplied
value is truthy (non-None and non-empty). -/
def applyPaymentSet (body : PaymentStatusUpdate) (now : Nat) (d : PaymentDoc) :
    PaymentDoc :=
  let d1 := { d with status := body.status, updated_at := some now }
  if strTruthy body.provider_payment_id then
    { d1 with provider_payment_id := body.provider_payment_id }
  else d1

/-- Handler for POST /payments/(payment_id)/status (main.py 354-362). -/
def update_payment_status (db : DB) (now : Nat) (payment_id : String)
    (body : PaymentStatusUpdate) : Except HttpError UpdatedResponse × DB :=
  match to_object_id payment_id with
  | .error e => (.error e, db)
  | .ok oid =>
    match updateFirst (fun d => d._id == oid) (applyPaymentSet body now) db.payments with
    | none => (.error ⟨404, "Payment not found"⟩, db)
    | some ps => (.ok ⟨true⟩, { db with payments := ps })

-- ---------- Admin ----------

structure UserStatusUpdate where
  status : UserStatus
deriving DecidableEq, Repr

/-- Handler for POST /admin/users/(user_id)/status (main.py 380-385). -/
def admin_update_user_status (db : DB) (now : Nat) (user_id : String)
    (body : UserStatusUpdate) : Except HttpError UpdatedResponse × DB :=
  match to_object_id user_id with
  | .error e => (.error e, db)
  | .ok oid =>
    match updateFirst (fun u => u._id == oid)
        (fun u => { u with status := body.status, updated_at := some now })
        db.users with
    | none => (.error ⟨404, "User not found"⟩, db)
    | some us => (.ok ⟨true⟩, { db with users := us })

-- ---------- Helper lemmas ----------

theorem updateFirst_eq_none {α : Type} (p : α → Bool) (f : α → α) :
    ∀ l : List α, updateFirst p f l = none ↔ ∀ a ∈ l, p a = false := by
  intro l
  induction l with
  | nil => simp [updateFirst]
  | cons a as ih =>
    simp only [updateFirst]
    cases h : p a with
    | true => simp [h]
    | false => simp [h, Option.map_eq_none', ih]

theorem updateFirst_eq_some {α : Type} (p : α → Bool) (f : α → α) :
    ∀ (l l' : List α), updateFirst p f l = some l' →
      ∃ pre a post, l = pre ++ a :: post ∧ (∀ b ∈ pre, p b = false) ∧
        p a = true ∧ l' = pre ++ f a :: post := by
  intro l
  induction l with
  | nil => intro l' h; simp [updateFirst] at h
  | cons a as ih =>
    intro l' h
    simp only [updateFirst] at h
    by_cases hp : p a = true
    · rw [if_pos hp] at h
      injection h with h
      exact ⟨[], a, as, by simp, by simp, hp, by simp [← h]⟩
    · rw [if_neg hp, Option.map_eq_some'] at h
      rw [Bool.not_eq_true] at hp
      obtain ⟨as', h1, h2⟩ := h
      obtain ⟨pre, x, post, e1, e2, e3, e4⟩ := ih as' h1
      refine ⟨a :: pre, x, post, by simp [e1], ?_, e3, by simp [← h2, e4]⟩
      intro b hb
      rcases List.mem_cons.mp hb with hb | hb
      · subst hb; exact hp
      · exact e2 b hb

-- ---------- Concrete fixtures ----------

def hashA : String → String := fun s => s ++ "#"

def pid1 : String := "000000000000000000000001"

def pid2 : String := "000000000000000000000002"

def pidMissing : String := "000000000000000000000009"

def userA : UserDoc :=
  { _id := 1, full_name := "Alice", email := "alice@example.com", mobile := "111",
    password_hash := some "secret#", role := .BUYER, status := .ACTIVE,
    updated_at := none }

def propA : PropertyDoc :=
  { _id := 2, owner_id := pid1, title := "Flat", description := none,
    property_type := "APARTMENT", price := 100, currency := "INR",
    area_sqft := none, bedrooms := none, bathrooms := none, parking := none,
    furnished := none, address_line := none, city := none, state := none,
    pincode := none, latitude := none, longitude := none, verified := false,
    status := "ACTIVE", images := [], updated_at := none }

def db0 : DB := ⟨[], [], [], [], 1⟩

def db1 : DB := ⟨[userA], [propA], [], [], 3⟩

def payA : PaymentDoc :=
  ⟨3, pid1, pid2, 100, "INR", .BOOKING, some .MANUAL, none, .INITIATED, none⟩

def dbPay : DB := ⟨[userA], [propA], [], [payA], 4⟩

def msg1 : MessageDoc := ⟨3, pid1, pid2, none, "s1", "b1", false⟩

def msg2 : MessageDoc := ⟨4, "other", pid1, none, "s2", "b2", false⟩

def dbMsg : DB := ⟨[userA], [propA], [msg1, msg2], [], 5⟩

def reqS : PaymentCreate :=
  { buyer_id := pid1, property_id := pid2, amount := 100, status := .SUCCESS }

def reqI : PaymentCreate := { buyer_id := pid1, property_id := pid2, amount := 100 }

-- ---------- C1 ----------

/-- C1 counterexample: the payment-create request model inherits every
schemas.Payment field, so a request whose buyer and property both resolve
may supply `status = "SUCCESS"`, and the inserted payment document then
has status SUCCESS, not INITIATED. -/
theorem c1_counterexample :
    (create_payment db1 reqS).1 = .ok ⟨3⟩ ∧
    (create_payment db1 reqS).2.payments.map (fun d => d.status) = [PayStatus.SUCCESS] ∧
    PayStatus.SUCCESS ≠ PayStatus.INITIATED :=
  ⟨rfl, rfl, by decide⟩

/-- C1 (amended): for every payment-create request whose buyer_id and
property_id resolve to an existing user and property, the create
operation inserts one payment document carrying the request's fields —
whose status is the requested status, INITIATED being only the schema
default when the field is omitted — and returns the new identifier. -/
theorem c1_payment_create (db : DB) (req : PaymentCreate)
    (hb : isValidObjectId req.buyer_id = true)
    (hbu : ∃ u ∈ db.users, u._id = decodeHex req.buyer_id)
    (hp : isValidObjectId req.property_id = true)
    (hpp : ∃ d ∈ db.properties, d._id = decodeHex req.property_id) :
    ∃ doc : PaymentDoc,
      create_payment db req =
        (.ok ⟨db.nextId⟩,
         { db with payments := db.payments ++ [doc], nextId := db.nextId + 1 }) ∧
      doc.status = req.status ∧ doc.buyer_id = req.buyer_id ∧
      doc.property_id = req.property_id ∧ doc.amount = req.amount ∧
      doc._id = db.nextId := by
  obtain ⟨u, hu, hue⟩ := hbu
  obtain ⟨d, hd, hde⟩ := hpp
  have h1 : (db.users.find? (fun x => x._id == decodeHex req.buyer_id)).isSome := by
    rw [List.find?_isSome]
    exact ⟨u, hu, by simpa using hue⟩
  have h2 : (db.properties.find? (fun x => x._id == decodeHex req.property_id)).isSome := by
    rw [List.find?_isSome]
    exact ⟨d, hd, by simpa using hde⟩
  obtain ⟨u1, hu1⟩ := Option.isSome_iff_exists.mp h1
  obtain ⟨d1, hd1⟩ := Option.isSome_iff_exists.mp h2
  refine ⟨{ _id := db.nextId, buyer_id := req.buyer_id,
            property_id := req.property_id, amount := req.amount,
            currency := req.currency, purpose := req.purpose,
            provider := req.provider,
            provider_payment_id := req.provider_payment_id,
            status := req.status, updated_at := none }, ?_, rfl, rfl, rfl, rfl, rfl⟩
  simp [create_payment, to_object_id, hb, hp, hu1, hd1, DB.insertPayment]

/-- C1 witness: on a store holding one user and one property, a request
that leaves the status at its INITIATED default succeeds. -/
theorem c1_witness :
    ∃ doc : PaymentDoc,
      create_payment db1 reqI =
        (.ok ⟨db1.nextId⟩,
         { db1 with payments := db1.payments ++ [doc], nextId := db1.nextId + 1 }) ∧
      doc.status = reqI.status ∧ doc.buyer_id = reqI.buyer_id ∧
      doc.property_id = reqI.property_id ∧ doc.amount = reqI.amount ∧
      doc._id = db1.nextId :=
  c1_payment_create db1 reqI (by decide) ⟨userA, by decide, by decide⟩
    (by decide) ⟨propA, by decide, by decide⟩

-- ---------- C2 ----------

/-- C2: for every database state and every combination of query filters,
the property list operation returns no record whose stored status is the
string INACTIVE. -/
theorem c2_list_excludes_inactive (db : DB) (p : ListPropertiesParams)
    (d : PropertyDoc) (hd : d ∈ (list_properties db p).items) :
    d.status ≠ "INACTIVE" := by
  have hmem : d ∈ db.properties.filter (propertyMatches p) := by
    rcases hs : p.sort with _ | s
    · simp only [list_properties, hs] at hd
      have h2 := List.drop_subset _ _ (List.take_subset _ _ hd)
      exact (List.mem_insertionSort _).1 h2
    · rcases s with _ | _ | _ <;>
        · simp only [list_properties, hs] at hd
          have h2 := List.drop_subset _ _ (List.take_subset _ _ hd)
          exact (List.mem_insertionSort _).1 h2
  have hmatch := (List.mem_filter.mp hmem).2
  simp only [propertyMatches, Bool.and_eq_true] at hmatch
  have h := hmatch.1.1.1.1.1.1.1.1.1.1
  simpa [bne_iff_ne] using h

/-- C2 witness: a concrete ACTIVE property is listed under the default
filters and its status is not INACTIVE. -/
theorem c2_witness :
    propA ∈ (list_properties db1 {}).items ∧ propA.status ≠ "INACTIVE" :=
  ⟨by decide, c2_list_excludes_inactive db1 {} propA (by decide)⟩

-- ---------- C3 ----------

/-- C3: the property update fails with BadRequest on a body with no
fields; otherwise, for a well-formed id, it fails with NotFound when no
record matches, and on the first matching record it sets exactly the
supplied fields plus the updated timestamp, leaving every other field —
and every other record — unchanged. -/
theorem c3_update_property (db : DB) (now : Nat) (pid : String)
    (body : PropertyUpdate) :
    (emptyUpdate body = true →
      update_property db now pid body = (.error ⟨400, "No fields to update"⟩, db)) ∧
    (emptyUpdate body = false → isValidObjectId pid = true →
      ((∀ d ∈ db.properties, d._id ≠ decodeHex pid) →
        update_property db now pid body = (.error ⟨404, "Property not found"⟩, db)) ∧
      ((∃ d ∈ db.properties, d._id = decodeHex pid) →
        ∃ pre d post,
          db.properties = pre ++ d :: post ∧ d._id = decodeHex pid ∧
          (∀ e ∈ pre, e._id ≠ decodeHex pid) ∧
          ∃ d2,
            update_property db now pid body =
              (.ok ⟨true⟩, { db with properties := pre ++ d2 :: post }) ∧
            d2._id = d._id ∧ d2.owner_id = d.owner_id ∧ d2.verified = d.verified ∧
            d2.updated_at = some now ∧
            d2.title = body.title.getD d.title ∧
            d2.description = setOpt body.description d.description ∧
            d2.property_type = body.property_type.getD d.property_type ∧
            d2.price = body.price.getD d.price ∧
            d2.currency = body.currency.getD d.currency ∧
            d2.area_sqft = setOpt body.area_sqft d.area_sqft ∧
            d2.bedrooms = setOpt body.bedrooms d.bedrooms ∧
            d2.bathrooms = setOpt body.bathrooms d.bathrooms ∧
            d2.parking = setOpt body.parking d.parking ∧
            d2.furnished = setOpt body.furnished d.furnished ∧
            d2.address_line = setOpt body.address_line d.address_line ∧
            d2.city = setOpt body.city d.city ∧
            d2.state = setOpt body.state d.state ∧
            d2.pincode = setOpt body.pincode d.pincode ∧
            d2.latitude = setOpt body.latitude d.latitude ∧
            d2.longitude = setOpt body.longitude d.longitude ∧
            d2.status = body.status.getD d.status ∧
            d2.images = body.images.getD d.images)) := by
  constructor
  · intro h
    simp [update_property, h]
  · intro hne hv
    constructor
    · intro hall
      have hnone : updateFirst (fun d => d._id == decodeHex pid)
          (applySet body now) db.properties = none := by
        rw [updateFirst_eq_none]
        intro a ha
        simpa using hall a ha
      simp [update_property, hne, to_object_id, hv, hnone]
    · intro hex
      cases hu : updateFirst (fun d => d._id == decodeHex pid)
          (applySet body now) db.properties with
      | none =>
        exfalso
        obtain ⟨d, hd, hde⟩ := hex
        have := (updateFirst_eq_none _ _ _).mp hu d hd
        simp [hde] at this
      | some ps =>
        obtain ⟨pre, d, post, e1, e2, e3, e4⟩ := updateFirst_eq_some _ _ _ _ hu
        refine ⟨pre, d, post, e1, by simpa using e3, ?_, applySet body now d, ?_,
          rfl, rfl, rfl, rfl, rfl, rfl, rfl, rfl, rfl, rfl, rfl, rfl, rfl, rfl,
          rfl, rfl, rfl, rfl, rfl, rfl, rfl, rfl⟩
        · intro e he
          simpa using e2 e he
        · simp [update_property, hne, to_object_id, hv, hu, e4]

/-- C3 witness: an all-absent body is rejected with 400, and a non-empty
body aimed at an id matching no record yields 404 with the store
unchanged. -/
theorem c3_witness :
    update_property db1 7 pid2 {} = (.error ⟨400, "No fields to update"⟩, db1) ∧
    update_property db1 7 pidMissing { price := some 500 } =
      (.error ⟨404, "Property not found"⟩, db1) :=
  ⟨(c3_update_property db1 7 pid2 {}).1 (by decide),
   ((c3_update_property db1 7 pidMissing { price := some 500 }).2
     (by decide) (by decide)).1 (by decide)⟩

-- ---------- C4 ----------

/-- C4: login fails with 401 when no ACTIVE user carries the email, and
when every user with the email has a stored hash different from the
digest of the supplied password; a successful login returns exactly the
public fields (id, full_name, email, mobile, role) of a stored ACTIVE
user whose hash equals the digest — the hash itself is not among the
returned fields. -/
theorem c4_login (sha256hex : String → String) (db : DB) (req : LoginRequest) :
    ((∀ u ∈ db.users, ¬(u.email = req.email ∧ u.status = UserStatus.ACTIVE)) →
      login sha256hex db req = .error ⟨401, "Invalid credentials"⟩) ∧
    ((∀ u ∈ db.users, u.email = req.email →
        u.password_hash ≠ some (sha256hex req.password)) →
      login sha256hex db req = .error ⟨401, "Invalid credentials"⟩) ∧
    (∀ r, login sha256hex db req = .ok r →
      ∃ u ∈ db.users, u.email = req.email ∧ u.status = UserStatus.ACTIVE ∧
        u.password_hash = some (sha256hex req.password) ∧
        r = { id := u._id, full_name := u.full_name, email := u.email,
              mobile := u.mobile, role := u.role }) := by
  refine ⟨?_, ?_, ?_⟩
  · intro h
    have hnone : db.users.find?
        (fun u => u.email == req.email && u.status == UserStatus.ACTIVE) = none := by
      rw [List.find?_eq_none]
      intro x hx
      simpa using h x hx
    simp [login, hnone]
  · intro h
    cases hf : db.users.find?
        (fun u => u.email == req.email && u.status == UserStatus.ACTIVE) with
    | none => simp [login, hf]
    | some u =>
      have hpred := List.find?_some hf
      have hmem := List.mem_of_find?_eq_some hf
      simp only [Bool.and_eq_true, beq_iff_eq] at hpred
      have hne := h u hmem hpred.1
      have hbeq : (u.password_hash == some (sha256hex req.password)) = false :=
        beq_eq_false_iff_ne.mpr hne
      simp [login, hf, hbeq]
  · intro r hr
    cases hf : db.users.find?
        (fun u => u.email == req.email && u.status == UserStatus.ACTIVE) with
    | none => simp [login, hf] at hr
    | some u =>
      have hpred := List.find?_some hf
      have hmem := List.mem_of_find?_eq_some hf
      simp only [Bool.and_eq_true, beq_iff_eq] at hpred
      simp only [login, hf] at hr
      by_cases hpw : (u.password_hash == some (sha256hex req.password)) = true
      · rw [if_pos hpw] at hr
        injection hr with hr
        exact ⟨u, hmem, hpred.1, hpred.2, by simpa using hpw, hr.symm⟩
      · rw [if_neg hpw] at hr
        cases hr

def reqLoginWrong : LoginRequest := { email := "alice@example.com", password := "wrong" }

def reqLoginGood : LoginRequest := { email := "alice@example.com", password := "secret" }

def respA : LoginResponse :=
  { id := 1, full_name := "Alice", email := "alice@example.com", mobile := "111",
    role := .BUYER }

/-- C4 witness: the wrong password is rejected with 401, and the correct
credentials return exactly Alice's public fields. -/
theorem c4_witness :
    login hashA db1 reqLoginWrong = .error ⟨401, "Invalid credentials"⟩ ∧
    (∃ u ∈ db1.users, u.email = reqLoginGood.email ∧ u.status = UserStatus.ACTIVE ∧
      u.password_hash = some (hashA reqLoginGood.password) ∧
      respA = { id := u._id, full_name := u.full_name, email := u.email,
                mobile := u.mobile, role := u.role }) :=
  ⟨(c4_login hashA db1 reqLoginWrong).2.1 (by decide),
   (c4_login hashA db1 reqLoginGood).2.2 respA rfl⟩

-- ---------- C5 ----------

/-- C5: registration fails with Conflict when some stored user already
has the email or the mobile; otherwise it appends a single new user whose
status is ACTIVE, whose password_hash is the digest of the supplied
password (the plaintext password is not stored), and returns the new
identifier. -/
theorem c5_register (sha256hex : String → String) (db : DB)
    (req : RegisterRequest) :
    ((∃ u ∈ db.users, u.email = req.email ∨ u.mobile = req.mobile) →
      register sha256hex db req =
        (.error ⟨409, "Email or mobile already registered"⟩, db)) ∧
    ((∀ u ∈ db.users, u.email ≠ req.email ∧ u.mobile ≠ req.mobile) →
      ∃ nu : UserDoc,
        register sha256hex db req =
          (.ok ⟨db.nextId⟩,
           { db with users := db.users ++ [nu], nextId := db.nextId + 1 }) ∧
        nu.status = UserStatus.ACTIVE ∧
        nu.password_hash = some (sha256hex req.password) ∧
        nu.email = req.email ∧ nu.mobile = req.mobile ∧
        nu.full_name = req.full_name ∧ nu.role = req.role ∧
        nu._id = db.nextId) := by
  constructor
  · intro hex
    obtain ⟨u, hu, hor⟩ := hex
    have h1 : (db.users.find?
        (fun x => x.email == req.email || x.mobile == req.mobile)).isSome := by
      rw [List.find?_isSome]
      exact ⟨u, hu, by simpa using hor⟩
    obtain ⟨u1, hu1⟩ := Option.isSome_iff_exists.mp h1
    simp [register, hu1]
  · intro hall
    have hnone : db.users.find?
        (fun x => x.email == req.email || x.mobile == req.mobile) = none := by
      rw [List.find?_eq_none]
      intro x hx
      simpa using hall x hx
    refine ⟨{ _id := db.nextId, full_name := req.full_name, email := req.email,
              mobile := req.mobile, password_hash := some (sha256hex req.password),
              role := req.role, status := .ACTIVE, updated_at := none },
            ?_, rfl, rfl, rfl, rfl, rfl, rfl, rfl⟩
    simp [register, hnone, DB.insertUser]

def reqAliceAgain : RegisterRequest :=
  { full_name := "Alice B", email := "alice@example.com", mobile := "222",
    password := "pw2" }

def reqBob : RegisterRequest :=
  { full_name := "Bob", email := "bob@example.com", mobile := "333",
    password := "pw3" }

/-- C5 witness: re-using Alice's email is rejected with 409, and a fresh
registration on the empty store succeeds with an ACTIVE, hashed user. -/
theorem c5_witness :
    register hashA db1 reqAliceAgain =
      (.error ⟨409, "Email or mobile already registered"⟩, db1) ∧
    (∃ nu : UserDoc,
      register hashA db0 reqBob =
        (.ok ⟨db0.nextId⟩,
         { db0 with users := db0.users ++ [nu], nextId := db0.nextId + 1 }) ∧
      nu.status = UserStatus.ACTIVE ∧
      nu.password_hash = some (hashA reqBob.password) ∧
      nu.email = reqBob.email ∧ nu.mobile = reqBob.mobile ∧
      nu.full_name = reqBob.full_name ∧ nu.role = reqBob.role ∧
      nu._id = db0.nextId) :=
  ⟨(c5_register hashA db1 reqAliceAgain).1 ⟨userA, by decide, by decide⟩,
   (c5_register hashA db0 reqBob).2 (by decide)⟩

-- ---------- C6 ----------

/-- C6: the property list never returns more than 100 items; a
non-positive skip behaves as skip 0, a limit below 1 behaves as limit 1,
a limit above 100 behaves as limit 100, and an in-range limit bounds the
number of returned items. -/
theorem c6_pagination (db : DB) (p : ListPropertiesParams) :
    (list_properties db p).items.length ≤ 100 ∧
    (p.skip ≤ 0 → list_properties db p = list_properties db { p with skip := 0 }) ∧
    (1 ≤ p.limit → p.limit ≤ 100 →
      ((list_properties db p).items.length : Int) ≤ p.limit) ∧
    (p.limit ≤ 1 → list_properties db p = list_properties db { p with limit := 1 }) ∧
    (100 ≤ p.limit →
      list_properties db p = list_properties db { p with limit := 100 }) := by
  refine ⟨?_, ?_, ?_, ?_, ?_⟩
  · have h1 : (min (max 1 p.limit) 100).toNat ≤ 100 := by omega
    exact le_trans (List.length_take_le _ _) h1
  · intro h
    have e : max 0 p.skip = max 0 (0 : Int) := by omega
    simp only [list_properties]
    rw [e]
    rfl
  · intro h1 h2
    have h3 : (list_properties db p).items.length ≤ (min (max 1 p.limit) 100).toNat :=
      List.length_take_le _ _
    omega
  · intro h
    have e : min (max 1 p.limit) 100 = min (max 1 (1 : Int)) 100 := by omega
    simp only [list_properties]
    rw [e]
    rfl
  · intro h
    have e : min (max 1 p.limit) 100 = min (max 1 (100 : Int)) 100 := by omega
    simp only [list_properties]
    rw [e]
    rfl

/-- C6 witness: on a concrete store, a negative skip lists the same page
as skip 0, an oversized limit the same page as limit 100, and the count
stays within the in-range bound. -/
theorem c6_witness :
    list_properties db1 { skip := -5 } = list_properties db1 { skip := 0 } ∧
    list_properties db1 { limit := 1000 } = list_properties db1 { limit := 100 } ∧
    ((list_properties db1 { limit := 20 }).items.length : Int) ≤ 20 :=
  ⟨(c6_pagination db1 { skip := -5 }).2.1 (by decide),
   (c6_pagination db1 { limit := 1000 }).2.2.2.2 (by decide),
   (c6_pagination db1 { limit := 20 }).2.2.1 (by decide) (by decide)⟩

-- ---------- C7 ----------

/-- C7: for a well-formed payment id, the status update fails with 404
and leaves the store unchanged when no payment matches; on the first
matching payment it sets the status and the updated timestamp, sets
provider_payment_id exactly when a non-empty value is supplied (an
absent or empty value leaves it unchanged), and touches no other field
or record. -/
theorem c7_payment_status (db : DB) (now : Nat) (pid : String)
    (body : PaymentStatusUpdate) (hv : isValidObjectId pid = true) :
    ((∀ d ∈ db.payments, d._id ≠ decodeHex pid) →
      update_payment_status db now pid body =
        (.error ⟨404, "Payment not found"⟩, db)) ∧
    ((∃ d ∈ db.payments, d._id = decodeHex pid) →
      ∃ pre d post,
        db.payments = pre ++ d :: post ∧ d._id = decodeHex pid ∧
        (∀ e ∈ pre, e._id ≠ decodeHex pid) ∧
        ∃ d2,
          update_payment_status db now pid body =
            (.ok ⟨true⟩, { db with payments := pre ++ d2 :: post }) ∧
          d2.status = body.status ∧ d2.updated_at = some now ∧
          (∀ s, body.provider_payment_id = some s → s ≠ "" →
            d2.provider_payment_id = some s) ∧
          (body.provider_payment_id = none ∨ body.provider_payment_id = some "" →
            d2.provider_payment_id = d.provider_payment_id) ∧
          d2.buyer_id = d.buyer_id ∧ d2.property_id = d.property_id ∧
          d2.amount = d.amount ∧ d2.currency = d.currency ∧
          d2.purpose = d.purpose ∧ d2.provider = d.provider ∧
          d2._id = d._id) := by
  constructor
  · intro hall
    have hnone : updateFirst (fun d => d._id == decodeHex pid)
        (applyPaymentSet body now) db.payments = none := by
      rw [updateFirst_eq_none]
      intro a ha
      simpa using hall a ha
    simp [update_payment_status, to_object_id, hv, hnone]
  · intro hex
    cases hu : updateFirst (fun d => d._id == decodeHex pid)
        (applyPaymentSet body now) db.payments with
    | none =>
      exfalso
      obtain ⟨d, hd, hde⟩ := hex
      have := (updateFirst_eq_none _ _ _).mp hu d hd
      simp [hde] at this
    | some ps =>
      obtain ⟨pre, d, post, e1, e2, e3, e4⟩ := updateFirst_eq_some _ _ _ _ hu
      refine ⟨pre, d, post, e1, by simpa using e3, ?_,
        applyPaymentSet body now d, ?_, ?_, ?_, ?_, ?_, ?_, ?_, ?_, ?_, ?_, ?_, ?_⟩
      · intro e he
        simpa using e2 e he
      · simp [update_payment_status, to_object_id, hv, hu, e4]
      · simp [applyPaymentSet]
        split <;> rfl
      · simp [applyPaymentSet]
        split <;> rfl
      · intro s hs hne
        simp [applyPaymentSet, hs, strTruthy, hne]
      · intro hcase
        rcases hcase with hc | hc <;> simp [applyPaymentSet, hc, strTruthy]
      · simp [applyPaymentSet]
        split <;> rfl
      · simp [applyPaymentSet]
        split <;> rfl
      · simp [applyPaymentSet]
        split <;> rfl
      · simp [applyPaymentSet]
        split <;> rfl
      · simp [applyPaymentSet]
        split <;> rfl
      · simp [applyPaymentSet]
        split <;> rfl
      · simp [applyPaymentSet]
        split <;> rfl

/-- C7 witness: a status update aimed at an id that matches no payment
returns 404 and leaves the concrete store unchanged. -/
theorem c7_witness :
    update_payment_status dbPay 9 pidMissing { status := .SUCCESS } =
      (.error ⟨404, "Payment not found"⟩, dbPay) :=
  (c7_payment_status dbPay 9 pidMissing { status := .SUCCESS } (by decide)).1
    (by decide)

-- ---------- C8 ----------

/-- C8: whatever the message list returns for a user id, every returned
message names that id as sender or receiver (by plain string equality),
the list holds at most 100 messages, and it is ordered by descending
store id, i.e. newest first by insertion order. -/
theorem c8_list_messages (db : DB) (uid : String) (items : List MessageDoc)
    (h : list_messages db uid = .ok ⟨items⟩) :
    (∀ m ∈ items, m.sender_id = uid ∨ m.receiver_id = uid) ∧
    items.length ≤ 100 ∧
    items.Pairwise (fun a b => b._id ≤ a._id) := by
  cases hv : to_object_id uid with
  | error e =>
    rw [list_messages, hv] at h
    cases h
  | ok n =>
    rw [list_messages, hv] at h
    injection h with h
    injection h with h
    subst h
    refine ⟨?_, List.length_take_le _ _, ?_⟩
    · intro m hm
      have h2 := (List.mem_insertionSort _).1 (List.take_subset _ _ hm)
      have h3 := (List.mem_filter.mp h2).2
      simpa using h3
    · haveI ht : IsTotal MessageDoc (fun a b => b._id ≤ a._id) :=
        ⟨fun a b => Nat.le_total b._id a._id⟩
      haveI htr : IsTrans MessageDoc (fun a b => b._id ≤ a._id) :=
        ⟨fun _ _ _ h1 h2 => Nat.le_trans h2 h1⟩
      exact List.Pairwise.sublist (List.take_sublist _ _)
        (List.sorted_insertionSort _ _)

/-- C8 witness: on a concrete store, the list for Alice's id returns the
two messages naming her, newest first. -/
theorem c8_witness :
    (∀ m ∈ [msg2, msg1], m.sender_id = pid1 ∨ m.receiver_id = pid1) ∧
    ([msg2, msg1] : List MessageDoc).length ≤ 100 ∧
    ([msg2, msg1] : List MessageDoc).Pairwise (fun a b => b._id ≤ a._id) :=
  c8_list_messages dbMsg pid1 [msg2, msg1] rfl

-- ---------- C9 ----------

def reqBadProp : PaymentCreate :=
  { buyer_id := pidMissing, property_id := "zz", amount := 1 }

def reqMsgEmptyProp : MessageCreate :=
  { sender_id := pid1, receiver_id := pid1, property_id := some "",
    subject := "s", body := "b" }

/-- C9 counterexample: a malformed id in a body does not always produce
BadRequest.  With a well-formed but unresolvable buyer_id and a malformed
property_id, payment creation fails 404 (Buyer not found), not 400; and
message creation with the malformed (empty-string) property_id succeeds
outright, because `if req.property_id:` treats the empty string as
absent. -/
theorem c9_counterexample :
    isValidObjectId "zz" = false ∧
    create_payment db1 reqBadProp = (.error ⟨404, "Buyer not found"⟩, db1) ∧
    (404 : Nat) ≠ 400 ∧
    isValidObjectId "" = false ∧
    (create_message db1 reqMsgEmptyProp).1 = .ok ⟨3⟩ :=
  ⟨by decide, rfl, by decide, by decide, rfl⟩

/-- C9 (amended): supplying a malformed identifier in a path or body
makes the operation fail and leaves the store unchanged, and the failure
is BadRequest whenever the malformed identifier is the first one the
operation validates (in particular always, for the endpoints carrying a
single identifier); in operations that validate several identifiers in
sequence, a failure on an earlier identifier may preempt the 400, and an
empty-string property_id in message creation is treated as absent and
skips validation, so that request can succeed. -/
theorem c9_malformed_ids (db : DB) (now : Nat) (s : String)
    (pc : PropertyCreate) (pu : PropertyUpdate) (vr : VerifyRequest)
    (mc : MessageCreate) (payc : PaymentCreate) (pst : PaymentStatusUpdate)
    (us : UserStatusUpdate) :
    (isValidObjectId pc.owner_id = false →
      create_property db pc = (.error ⟨400, "Invalid ID format"⟩, db)) ∧
    (isValidObjectId s = false →
      get_property db s = .error ⟨400, "Invalid ID format"⟩) ∧
    (isValidObjectId s = false →
      (update_property db now s pu).2 = db ∧
      ∃ msg, (update_property db now s pu).1 = .error ⟨400, msg⟩) ∧
    (isValidObjectId s = false →
      delete_property db s = (.error ⟨400, "Invalid ID format"⟩, db)) ∧
    (isValidObjectId s = false →
      verify_property db now s vr = (.error ⟨400, "Invalid ID format"⟩, db)) ∧
    (isValidObjectId mc.sender_id = false →
      create_message db mc = (.error ⟨400, "Invalid ID format"⟩, db)) ∧
    (isValidObjectId mc.receiver_id = false →
      (create_message db mc).2 = db ∧
      ∃ e, (create_message db mc).1 = .error e) ∧
    ((∃ pp, mc.property_id = some pp ∧ pp ≠ "" ∧ isValidObjectId pp = false) →
      (create_message db mc).2 = db ∧
      ∃ e, (create_message db mc).1 = .error e) ∧
    (isValidObjectId payc.buyer_id = false →
      create_payment db payc = (.error ⟨400, "Invalid ID format"⟩, db)) ∧
    (isValidObjectId payc.property_id = false →
      (create_payment db payc).2 = db ∧
      ∃ e, (create_payment db payc).1 = .error e) ∧
    (isValidObjectId s = false →
      update_payment_status db now s pst = (.error ⟨400, "Invalid ID format"⟩, db)) ∧
    (isValidObjectId s = false →
      admin_update_user_status db now s us = (.error ⟨400, "Invalid ID format"⟩, db)) := by
  refine ⟨?_, ?_, ?_, ?_, ?_, ?_, ?_, ?_, ?_, ?_, ?_, ?_⟩
  · intro h
    simp [create_property, to_object_id, h]
  · intro h
    simp [get_property, to_object_id, h]
  · intro h
    by_cases he : emptyUpdate pu = true
    · exact ⟨by simp [update_property, he], "No fields to update",
        by simp [update_property, he]⟩
    · rw [Bool.not_eq_true] at he
      exact ⟨by simp [update_property, he, to_object_id, h], "Invalid ID format",
        by simp [update_property, he, to_object_id, h]⟩
  · intro h
    simp [delete_property, to_object_id, h]
  · intro h
    simp [verify_property, to_object_id, h]
  · intro h
    simp [create_message, to_object_id, h]
  · intro h
    simp only [create_message]
    split
    next e he => exact ⟨rfl, e, rfl⟩
    next sid hs =>
      split
      next hf => exact ⟨rfl, _, rfl⟩
      next u hf =>
        split
        next e he => exact ⟨rfl, e, rfl⟩
        next rid hr => simp [to_object_id, h] at hr
  · intro h
    obtain ⟨pp, hpp, hne, hpv⟩ := h
    have ht : strTruthy mc.property_id = true := by
      simp [strTruthy, hpp, hne]
    simp only [create_message]
    split
    next e he => exact ⟨rfl, e, rfl⟩
    next sid hs =>
      split
      next hf => exact ⟨rfl, _, rfl⟩
      next u hf =>
        split
        next e he => exact ⟨rfl, e, rfl⟩
        next rid hr =>
          split
          next hf2 => exact ⟨rfl, _, rfl⟩
          next u2 hf2 =>
            split
            next hcond =>
              split
              next e he => exact ⟨rfl, e, rfl⟩
              next pid2 hp => simp [hpp, to_object_id, hpv] at hp
            next hcond => exact absurd ht hcond
  · intro h
    simp [create_payment, to_object_id, h]
  · intro h
    simp only [create_payment]
    split
    next e he => exact ⟨rfl, e, rfl⟩
    next bid hs =>
      split
      next hf => exact ⟨rfl, _, rfl⟩
      next u hf =>
        split
        next e he => exact ⟨rfl, e, rfl⟩
        next pid2 hr => simp [to_object_id, h] at hr
  · intro h
    simp [update_payment_status, to_object_id, h]
  · intro h
    simp [admin_update_user_status, to_object_id, h]

def reqBadBuyer : PaymentCreate :=
  { buyer_id := "zz", property_id := pid2, amount := 1 }

def pcDummy : PropertyCreate :=
  { owner_id := pid1, title := "t", property_type := .HOUSE, price := 1 }

def mcDummy : MessageCreate :=
  { sender_id := pid1, receiver_id := pid1, subject := "s", body := "b" }

/-- C9 witness: on a concrete store, a malformed path id yields 400 on
the single-id endpoints, a malformed buyer_id yields 400 on payment
creation, and a malformed second id still fails with the store
unchanged. -/
theorem c9_witness :
    get_property db1 "zz" = .error ⟨400, "Invalid ID format"⟩ ∧
    delete_property db1 "zz" = (.error ⟨400, "Invalid ID format"⟩, db1) ∧
    create_payment db1 reqBadBuyer = (.error ⟨400, "Invalid ID format"⟩, db1) ∧
    (create_payment db1 reqBadProp).2 = db1 ∧
    (∃ e, (create_payment db1 reqBadProp).1 = .error e) := by
  have h1 := (c9_malformed_ids db1 0 "zz" pcDummy {} ⟨true⟩ mcDummy
    reqBadBuyer { status := .SUCCESS } ⟨.ACTIVE⟩).2.1 (by decide)
  have h2 := (c9_malformed_ids db1 0 "zz" pcDummy {} ⟨true⟩ mcDummy
    reqBadBuyer { status := .SUCCESS } ⟨.ACTIVE⟩).2.2.2.1 (by decide)
  have h3 := (c9_malformed_ids db1 0 "zz" pcDummy {} ⟨true⟩ mcDummy
    reqBadBuyer { status := .SUCCESS } ⟨.ACTIVE⟩).2.2.2.2.2.2.2.2.1 (by decide)
  have h4 := (c9_malformed_ids db1 0 "zz" pcDummy {} ⟨true⟩ mcDummy
    reqBadProp { status := .SUCCESS } ⟨.ACTIVE⟩).2.2.2.2.2.2.2.2.2.1 (by decide)
  exact ⟨h1, h2, h3, h4.1, h4.2⟩

-- ---------- C10 ----------

def uidUpper : String := "00000000000000000000000A"

def uidLower : String := "00000000000000000000000a"

def msgU : MessageDoc := ⟨1, uidUpper, "x", none, "s", "b", false⟩

def dbCase : DB := ⟨[], [], [msgU], [], 2⟩

/-- C10: a malformed user_id makes the message list fail with 400 before
any query; and the parsed ObjectId is never used for the match — two
well-formed encodings of the same identifier differing only in hex case
select different messages, because the match compares plain strings. -/
theorem c10_list_messages_parse (db : DB) (s : String)
    (h : isValidObjectId s = false) :
    list_messages db s = .error ⟨400, "Invalid ID format"⟩ ∧
    decodeHex uidUpper = decodeHex uidLower ∧
    list_messages dbCase uidLower = .ok ⟨[]⟩ ∧
    list_messages dbCase uidUpper = .ok ⟨[msgU]⟩ := by
  refine ⟨?_, by decide, rfl, rfl⟩
  simp [list_messages, to_object_id, h]

/-- C10 witness: a concrete malformed user_id is rejected with 400. -/
theorem c10_witness :
    list_messages db1 "bad" = .error ⟨400, "Invalid ID format"⟩ ∧
    decodeHex uidUpper = decodeHex uidLower ∧
    list_messages dbCase uidLower = .ok ⟨[]⟩ ∧
    list_messages dbCase uidUpper = .ok ⟨[msgU]⟩ :=
  c10_list_messages_parse db1 "bad" (by decide)

end RealEstate
